import Mathlib

/-!
Verification of the cheezious-rag repository: a minimal retrieval-augmented
generation (RAG) HTTP service.  The development shallowly embeds the
orchestrator (`Rag.store`, `Rag.query`, `Rag.__init__` from src/rag/rag.py)
and the two HTTP ingestion handlers (`add_document` from src/__init__.py and
`ingest_document` from src/rag/router.py).

External collaborators (embedding API, Pinecone vector store, chat model,
document loaders) are black boxes: their outcomes (success/failure, loaded
documents, ranking of records) enter the model as explicit environment
parameters, while the repository code's own control flow — which collaborator
is called, in which order, with which arguments, and how its failure is
handled — is translated line by line from the Python source.  Python
exceptions are modelled with `Except` / explicit failure flags; observable
collaborator calls and filesystem actions are recorded in an event trace.
-/

/-- A metadata value: the Python code stores strings (source names) and
natural numbers (start_index offsets) in document metadata dicts. -/
inductive MetaVal where
  | str : String → MetaVal
  | nat : Nat → MetaVal
deriving DecidableEq

/-- A langchain `Document`: page content plus a metadata mapping,
modelled as an association list. -/
structure Document where
  page_content : List Char
  metadata : List (String × MetaVal)
deriving DecidableEq

/-- One entry of the `sources` field of a query result
(`{"content": ..., "metadata": ...}` in `Rag.query`). -/
structure SourceEntry where
  content : List Char
  metadata : List (String × MetaVal)
deriving DecidableEq

/-- The dict returned by `Rag.query`. -/
structure QueryResult where
  query : List Char
  response : List Char
  sources : List SourceEntry
deriving DecidableEq

/-- Which document loader a handler invoked. -/
inductive LoaderKind where
  | pdf
  | txt
  | web
deriving DecidableEq

/-- Observable effects of a request: calls that leave the orchestrator
(vector-store add, vector-store similarity search, LLM generation, loader
invocation) and filesystem actions on the staged temporary file. -/
inductive Event where
  | tempWrite : Event
  | tempRemove : Event
  | loadCall : LoaderKind → Event
  | addDocumentsCall : List Document → Event
  | searchCall : List Char → Nat → Event
  | generateCall : List Char → Event
deriving DecidableEq

def isLoadCall : Event → Bool
  | Event.loadCall _ => true
  | _ => false

def isAddCall : Event → Bool
  | Event.addDocumentsCall _ => true
  | _ => false

def isSearchCall : Event → Bool
  | Event.searchCall _ _ => true
  | _ => false

def isTempWrite : Event → Bool
  | Event.tempWrite => true
  | _ => false

def isTempRemove : Event → Bool
  | Event.tempRemove => true
  | _ => false

/-- Fuel-driven worker for the chunker.  Emits the window starting at the
current position (absolute offset `o` in the original text) and, while more
than `chunk_size` characters remain, advances by `stride` characters.  The
fuel only bounds recursion depth; `split_text` supplies enough fuel that it
never runs out (one unit per emitted non-final window). -/
def split_text_fuel (chunk_size stride : Nat) : Nat → List Char → Nat → List (List Char × Nat)
  | 0, s, o => [(s, o)]
  | Nat.succ fuel, s, o =>
    if s.length ≤ chunk_size then [(s, o)]
    else (s.take chunk_size, o) :: split_text_fuel chunk_size stride fuel (s.drop stride) (o + stride)

/-- Modelled from the spec: the chunker used by `Rag.store` is langchain's
`RecursiveCharacterTextSplitter(chunk_size=1000, chunk_overlap=200,
add_start_index=True)`, library code that is not part of this repository.
Following the spec's Chunker contract (sec. 4.1): the text is split into
windows of at most `chunk_size` characters, advancing by
`chunk_size - overlap` characters between successive windows; each window is
paired with its character offset in the source text. -/
def split_text (chunk_size overlap : Nat) (s : List Char) : List (List Char × Nat) :=
  split_text_fuel chunk_size (chunk_size - overlap) s.length s 0

/-- Chunking of one document: each window becomes a `Document` carrying the
originating document's metadata plus its `start_index` offset
(spec sec. 4.1; langchain's `add_start_index=True`). -/
def splitDocument (chunk_size overlap : Nat) (d : Document) : List Document :=
  (split_text chunk_size overlap d.page_content).map fun p =>
    { page_content := p.1
      metadata := d.metadata ++ [("start_index", MetaVal.nat p.2)] }

/-- `text_splitter.split_documents(data)`: chunk every input document and
concatenate the results. -/
def split_documents (chunk_size overlap : Nat) (docs : List Document) : List Document :=
  (docs.map (splitDocument chunk_size overlap)).flatten

/-- Failure injection for the two operations inside `Rag.store`'s try block:
an exception raised while chunking, and an exception raised by the
vector store's `add_documents` call. -/
structure StoreEnv where
  splitFails : Bool
  addFails : Bool
deriving DecidableEq

/-- `Rag.store` (src/rag/rag.py lines 35-64): chunk the input documents with
the 1000/200 splitter and forward all chunks to
`self.vector_store.add_documents`; the whole body is wrapped in
`try/except` returning `True` on success and `False` on any exception.
The persisted record set is the second component; the trace records the
add call (made whenever chunking did not raise, even for an empty chunk
list, exactly as in the source). -/
def ragStore (env : StoreEnv) (st : List Document) (data : List Document) :
    Bool × List Document × List Event :=
  if env.splitFails then (false, st, [])
  else
    let splits := split_documents 1000 200 data
    if env.addFails then (false, st, [Event.addDocumentsCall splits])
    else (true, st ++ splits, [Event.addDocumentsCall splits])

/-- Failure injection for the three external calls made by `Rag.query`:
the retrieval feeding the RAG chain, the LLM generation, and the second
retrieval that builds the `sources` list. -/
structure QueryEnv where
  retrieval1Fails : Bool
  generationFails : Bool
  retrieval2Fails : Bool
deriving DecidableEq

/-- The vector store's similarity search as used through
`as_retriever(search_kwargs={"k": top_k})`: the store ranks its records
against the query (black-box `rank`) and returns the first `top_k`. -/
def similarity_search (rank : List Char → List Document → List Document)
    (records : List Document) (q : List Char) (k : Nat) : List Document :=
  (rank q records).take k

/-- The retrieved documents as they are substituted for `{context}` in the
prompt template. -/
def renderDocs (docs : List Document) : List Char :=
  (docs.map Document.page_content).flatten

/-- The fixed prompt template of `Rag.query`, with the retrieved context and
the question substituted in. -/
def promptTemplate (context question : List Char) : List Char :=
  ("Answer the question based only on the following context:\n".toList
    ++ context
    ++ "\n\nQuestion: ".toList ++ question)

/-- `Rag.query` (src/rag/rag.py lines 66-123): build a retriever with
`k = top_k`, run the RAG chain (retrieval, prompt, LLM, parse), then call
`retriever.get_relevant_documents` a second time to build `sources`, and
return the result dict.  The `except` clause re-raises, so every downstream
failure surfaces as `Except.error`.  The store contents are snapshotted per
retrieval (`records₀` for the chain's retrieval, `records₁` for the
`sources` retrieval): the two calls are independent requests to the
vector store. -/
def ragQuery (env : QueryEnv) (rank : List Char → List Document → List Document)
    (generate : List Char → List Char) (records₀ records₁ : List Document)
    (query_text : List Char) (top_k : Nat) :
    Except String (QueryResult × List Event) :=
  if env.retrieval1Fails then Except.error "Error processing query"
  else
    let ctxDocs := similarity_search rank records₀ query_text top_k
    let prompt := promptTemplate (renderDocs ctxDocs) query_text
    if env.generationFails then Except.error "Error processing query"
    else
      let response := generate prompt
      if env.retrieval2Fails then Except.error "Error processing query"
      else
        let source_docs := similarity_search rank records₁ query_text top_k
        Except.ok
          ({ query := query_text
             response := response
             sources := source_docs.map fun d =>
               { content := d.page_content, metadata := d.metadata } },
           [Event.searchCall query_text top_k, Event.generateCall prompt,
            Event.searchCall query_text top_k])

/-- The environment variables read by `Rag.__init__` via `os.getenv`:
`none` models an absent variable (Python `None`). -/
structure EnvVars where
  openai_api_key : Option String
  pinecone_index_name : Option String
  pinecone_api_key : Option String
deriving DecidableEq

/-- Black-box behaviour of the three collaborator constructors invoked by
`Rag.__init__`: whether `init_chat_model`, `OpenAIEmbeddings` (given the
api key it received) and `PineconeVectorStore` (given index name and api
key) raise.  The repository's code does not constrain these. -/
structure CtorBehavior where
  chatModelFails : Bool
  embeddingsFails : Option String → Bool
  vectorStoreFails : Option String → Option String → Bool

/-- The constructed orchestrator: it holds whatever credential values were
read from the environment, validated or not. -/
structure RagHandle where
  openaiKey : Option String
  pineconeIndex : Option String
  pineconeKey : Option String
deriving DecidableEq

/-- `Rag.__init__` (src/rag/rag.py lines 17-33): construct the chat model,
the embeddings client with `os.getenv("OPENAI_API_KEY")`, and the vector
store with `os.getenv("PINECONE_INDEX_NAME")` / `os.getenv("PINECONE_API_KEY")`,
in that order; the `except` clause logs and re-raises.  No credential is
checked by the repository's own code: absent values are passed through to
the collaborator constructors. -/
def ragInit (env : EnvVars) (b : CtorBehavior) : Except String RagHandle :=
  if b.chatModelFails then Except.error "Failed to initialize RAG system"
  else if b.embeddingsFails env.openai_api_key then
    Except.error "Failed to initialize RAG system"
  else if b.vectorStoreFails env.pinecone_index_name env.pinecone_api_key then
    Except.error "Failed to initialize RAG system"
  else
    Except.ok
      { openaiKey := env.openai_api_key
        pineconeIndex := env.pinecone_index_name
        pineconeKey := env.pinecone_api_key }

/-- Response dict of the HTTP handlers (`{"success": ..., "message": ...}`). -/
structure ApiResponse where
  success : Bool
  message : String
deriving DecidableEq

/-- An uploaded file as the handlers see it. -/
structure UploadFile where
  filename : String
  content : List Char
deriving DecidableEq

/-- Python's `str.endswith` on file names. -/
def endswith (suf s : String) : Bool :=
  suf.toList.isSuffixOf s.toList

/-- Environment of the `add_document` handler: outcome and result of each
possible loader invocation, plus the failure flags threaded to `Rag.store`. -/
structure AddDocEnv where
  pdfLoadOk : Bool
  pdfDocs : List Document
  txtLoadOk : Bool
  txtDocs : List Document
  webLoadOk : Bool
  webDocs : List Document
  storeEnv : StoreEnv

/-- Shared tail of `add_document`: call `rag.store(documents)` and map its
boolean onto the success/failure response. -/
def storeRespond (senv : StoreEnv) (st : List Document) (docs : List Document)
    (trPre : List Event) : ApiResponse × List Document × List Event :=
  let r := ragStore senv st docs
  if r.1 then
    ({ success := true, message := "Documents added to Pinecone vector store" },
     r.2.1, trPre ++ r.2.2)
  else
    ({ success := false, message := "Failed to store documents" },
     r.2.1, trPre ++ r.2.2)

/-- `add_document` (src/__init__.py lines 33-78): if a file is given, stage
it in a temporary file (`delete=False`, and the handler never removes it),
then dispatch on the filename extension — `.pdf` and `.txt` get a loader
and are stored, anything else is answered with "Unsupported file format"
without invoking a loader; with no file but a url, the web loader runs;
with neither, "No valid input provided".  The surrounding `try/except`
turns a loader exception into a failure response. -/
def add_document (env : AddDocEnv) (st : List Document)
    (file : Option UploadFile) (url : Option String) :
    ApiResponse × List Document × List Event :=
  match file with
  | some f =>
    if endswith ".pdf" f.filename then
      if env.pdfLoadOk then
        storeRespond env.storeEnv st env.pdfDocs [Event.tempWrite, Event.loadCall LoaderKind.pdf]
      else
        ({ success := false, message := "loader error" }, st,
         [Event.tempWrite, Event.loadCall LoaderKind.pdf])
    else if endswith ".txt" f.filename then
      if env.txtLoadOk then
        storeRespond env.storeEnv st env.txtDocs [Event.tempWrite, Event.loadCall LoaderKind.txt]
      else
        ({ success := false, message := "loader error" }, st,
         [Event.tempWrite, Event.loadCall LoaderKind.txt])
    else
      ({ success := false, message := "Unsupported file format" }, st, [Event.tempWrite])
  | none =>
    match url with
    | some _ =>
      if env.webLoadOk then
        storeRespond env.storeEnv st env.webDocs [Event.loadCall LoaderKind.web]
      else
        ({ success := false, message := "loader error" }, st, [Event.loadCall LoaderKind.web])
    | none =>
      ({ success := false, message := "No valid input provided" }, st, [])

/-- Python dict assignment `metadata[k] = v` on an association list. -/
def updateMeta (m : List (String × MetaVal)) (k : String) (v : MetaVal) :
    List (String × MetaVal) :=
  if m.any (fun p => p.1 == k) then m.map (fun p => if p.1 == k then (k, v) else p)
  else m ++ [(k, v)]

/-- Environment of the `ingest_document` handler: whether the uploaded bytes
decode as UTF-8, the outcome and result of the `TextLoader` invocation, and
the failure flags threaded to `Rag.store`. -/
structure IngestEnv where
  decodeOk : Bool
  textLoadOk : Bool
  loadedDocs : List Document
  storeEnv : StoreEnv

/-- `ingest_document` (src/rag/router.py lines 52-102): decode the upload
(no extension check at all), write it to `temp_<filename>`, load it with
`TextLoader`, stamp each document's metadata with `source = filename`, call
`rag.store`, then `os.remove` the temporary file, and finally raise an
HTTPException if `store` reported failure.  Any exception inside the `try`
block (decode error, loader error, the explicit raise) reaches the caller
as an HTTPException; on the loader-error path `os.remove` is never
executed. -/
def ingest_document (env : IngestEnv) (st : List Document) (f : UploadFile) :
    Except String ApiResponse × List Document × List Event :=
  if env.decodeOk = false then
    (Except.error "Failed to ingest document", st, [])
  else if env.textLoadOk = false then
    (Except.error "Failed to ingest document", st,
     [Event.tempWrite, Event.loadCall LoaderKind.txt])
  else
    let documents := env.loadedDocs.map fun d =>
      { d with metadata := updateMeta d.metadata "source" (MetaVal.str f.filename) }
    let r := ragStore env.storeEnv st documents
    let tr := [Event.tempWrite, Event.loadCall LoaderKind.txt] ++ r.2.2 ++ [Event.tempRemove]
    if r.1 then
      (Except.ok { success := true, message := "Document ingested successfully" }, r.2.1, tr)
    else
      (Except.error "Failed to ingest document", r.2.1, tr)

/-- Concrete sample document used to instantiate theorems. -/
def wDoc : Document :=
  { page_content := ['h', 'i'], metadata := [] }

/-- Second concrete sample document. -/
def wDoc2 : Document :=
  { page_content := ['y', 'o'], metadata := [("source", MetaVal.str "m")] }

/-- A long concrete document (1201 characters) for the overlap theorem. -/
def wLongDoc : Document :=
  { page_content := List.replicate 1201 'a', metadata := [] }

/-- Sample ranking: the store returns records in insertion order. -/
def wRank : List Char → List Document → List Document := fun _ l => l

/-- Sample generation behaviour: a constant answer. -/
def wGen : List Char → List Char := fun _ => ['o', 'k']

/-- Query environment in which no external call fails. -/
def cleanQEnv : QueryEnv :=
  { retrieval1Fails := false, generationFails := false, retrieval2Fails := false }

/-- Store environment in which no external call fails. -/
def cleanStoreEnv : StoreEnv :=
  { splitFails := false, addFails := false }

/-- `add_document` environment in which every loader succeeds. -/
def wAddEnv : AddDocEnv :=
  { pdfLoadOk := true, pdfDocs := []
    txtLoadOk := true, txtDocs := [wDoc]
    webLoadOk := true, webDocs := []
    storeEnv := cleanStoreEnv }

/-- `ingest_document` environment in which everything succeeds. -/
def cIngestEnv : IngestEnv :=
  { decodeOk := true, textLoadOk := true, loadedDocs := [wDoc], storeEnv := cleanStoreEnv }

/-- `ingest_document` environment in which the `TextLoader` call raises. -/
def cLoadFailEnv : IngestEnv :=
  { decodeOk := true, textLoadOk := false, loadedDocs := [], storeEnv := cleanStoreEnv }

/-- Collaborator constructors that accept whatever credentials they are
handed (a behaviour the repository's code nowhere rules out). -/
def benignCtors : CtorBehavior :=
  { chatModelFails := false
    embeddingsFails := fun _ => false
    vectorStoreFails := fun _ _ => false }

/-- Collaborator constructors whose chat-model construction raises. -/
def failingCtors : CtorBehavior :=
  { chatModelFails := true
    embeddingsFails := fun _ => false
    vectorStoreFails := fun _ _ => false }

/-- Environment with every credential absent. -/
def emptyEnvVars : EnvVars :=
  { openai_api_key := none, pinecone_index_name := none, pinecone_api_key := none }

/-- Helper: with at most `chunk_size` characters left, the splitter emits a
single window holding the whole remaining text, for any fuel. -/
lemma split_text_fuel_short (fuel : Nat) (s : List Char) (o : Nat)
    (h : s.length ≤ 1000) :
    split_text_fuel 1000 800 fuel s o = [(s, o)] := by
  cases fuel with
  | zero => rfl
  | succ n => simp [split_text_fuel, h]

/-- Helper: with adequate fuel, the splitter's output starts with the window
`s.take 1000` at the current offset, and consecutive windows overlap by
exactly 200 characters. -/
lemma split_text_fuel_spec (fuel : Nat) :
    ∀ (s : List Char) (o : Nat), s.length ≤ 1000 + 800 * fuel →
      (∃ rest, split_text_fuel 1000 800 fuel s o = (s.take 1000, o) :: rest) ∧
      List.Chain' (fun a b : List Char × Nat =>
          a.1.drop (a.1.length - 200) = b.1.take 200)
        (split_text_fuel 1000 800 fuel s o) := by
  induction fuel with
  | zero =>
    intro s o h
    rw [Nat.mul_zero, Nat.add_zero] at h
    rw [split_text_fuel_short 0 s o h]
    exact ⟨⟨[], by rw [List.take_of_length_le h]⟩, List.chain'_singleton _⟩
  | succ n ih =>
    intro s o h
    by_cases hle : s.length ≤ 1000
    · rw [split_text_fuel_short (n + 1) s o hle]
      exact ⟨⟨[], by rw [List.take_of_length_le hle]⟩, List.chain'_singleton _⟩
    · push_neg at hle
      have hcond : ¬ s.length ≤ 1000 := by omega
      have hlen : (s.drop 800).length ≤ 1000 + 800 * n := by
        rw [List.length_drop]
        omega
      obtain ⟨⟨rest, hrest⟩, hchain⟩ := ih (s.drop 800) (o + 800) hlen
      have hunfold : split_text_fuel 1000 800 (n + 1) s o
          = (s.take 1000, o) :: split_text_fuel 1000 800 n (s.drop 800) (o + 800) := by
        simp [split_text_fuel, hcond]
      refine ⟨⟨split_text_fuel 1000 800 n (s.drop 800) (o + 800), hunfold⟩, ?_⟩
      rw [hunfold, hrest]
      refine List.chain'_cons.mpr ⟨?_, hrest ▸ hchain⟩
      show (s.take 1000).drop ((s.take 1000).length - 200)
          = ((s.drop 800).take 1000).take 200
      have h1 : (s.take 1000).length = 1000 := by
        rw [List.length_take]
        omega
      rw [h1]
      have h2 : (s.take 1000).drop 800 = (s.drop 800).take 200 := by
        have := List.drop_take 1000 800 s
        simpa using this
      rw [h2, List.take_take]
      norm_num

/-- Claim C5: for every document whose text length is at most the configured
chunk_size of 1000 characters, chunking inside `store` yields exactly one
chunk whose content equals the full document text and whose metadata records
start_index = 0. -/
theorem split_short_document (d : Document) (h : d.page_content.length ≤ 1000) :
    split_documents 1000 200 [d]
      = [{ page_content := d.page_content
           metadata := d.metadata ++ [("start_index", MetaVal.nat 0)] }] := by
  have h1 : split_text 1000 200 d.page_content = [(d.page_content, 0)] := by
    unfold split_text
    exact split_text_fuel_short _ _ _ h
  simp [split_documents, splitDocument, h1]

/-- Witness for C5 at a concrete two-character document. -/
theorem split_short_document_witness :
    wDoc.page_content.length ≤ 1000 ∧
    split_documents 1000 200 [wDoc]
      = [{ page_content := wDoc.page_content
           metadata := wDoc.metadata ++ [("start_index", MetaVal.nat 0)] }] :=
  ⟨by decide, split_short_document wDoc (by decide)⟩

/-- Claim C6: for every document whose text is longer than the chunk_size of
1000, each pair of consecutive chunks produced by the chunker overlaps by
exactly the configured 200 characters: the last 200 characters of chunk i
equal the first 200 characters of chunk i+1. -/
theorem split_overlap_exact (d : Document) (h : 1000 < d.page_content.length) :
    List.Chain' (fun c₁ c₂ : Document =>
        c₁.page_content.drop (c₁.page_content.length - 200)
          = c₂.page_content.take 200)
      (splitDocument 1000 200 d) := by
  have hmain := (split_text_fuel_spec d.page_content.length d.page_content 0 (by omega)).2
  unfold splitDocument split_text
  rw [List.chain'_map]
  have h8 : (1000 - 200 : Nat) = 800 := by norm_num
  rw [h8]
  exact hmain.imp (fun a b hab => hab)

set_option maxRecDepth 40000 in
/-- Witness for C6 at a concrete 1201-character document. -/
theorem split_overlap_exact_witness :
    1000 < wLongDoc.page_content.length ∧
    List.Chain' (fun c₁ c₂ : Document =>
        c₁.page_content.drop (c₁.page_content.length - 200)
          = c₂.page_content.take 200)
      (splitDocument 1000 200 wLongDoc) :=
  ⟨by norm_num [wLongDoc, List.length_replicate],
   split_overlap_exact wLongDoc (by norm_num [wLongDoc, List.length_replicate])⟩

/-- Claim C1: for every input list of documents, `Rag.store` returns a
boolean and never raises past its boundary (the embedding is a total
function into `Bool`): it returns false exactly when chunking or the
vector-store add call fails, true otherwise; and the returned boolean on a
chunking failure equals the returned boolean on a storage failure, so the
caller cannot distinguish the two. -/
theorem store_error_handling (env : StoreEnv) (st data : List Document) :
    ((ragStore env st data).1 = true ↔ env.splitFails = false ∧ env.addFails = false)
    ∧ (ragStore { splitFails := true, addFails := false } st data).1
      = (ragStore { splitFails := false, addFails := true } st data).1 := by
  obtain ⟨sf, af⟩ := env
  cases sf <;> cases af <;> simp [ragStore]

/-- Claim C2 (amended): calling `Rag.store` with an empty document list
succeeds (returns true) and leaves the persisted set of embedding records
unchanged; the vector store's add operation is nevertheless invoked, with
an empty chunk list. -/
theorem store_empty_amended (st : List Document) :
    ragStore cleanStoreEnv st [] = (true, st, [Event.addDocumentsCall []]) := by
  simp [ragStore, cleanStoreEnv, split_documents]

/-- Counterexample for C2 as stated: on the empty input, the trace of
`Rag.store` does contain a vector-store add call (with an empty chunk
list), refuting the claim's assertion that the add operation is not
invoked. -/
theorem store_empty_invokes_add :
    (ragStore cleanStoreEnv [] []).2.2.any isAddCall = true := by
  rfl

/-- Claim C3: for every query call with `top_k = k` in which no external
call fails, `Rag.query` requests exactly k nearest neighbors from the
vector store (every search event in the trace carries this query and this
k), and the `sources` field of the returned result contains
min k (number of records) entries: exactly k, or fewer only when the store
holds fewer than k records. -/
theorem query_topk (rank : List Char → List Document → List Document)
    (gen : List Char → List Char) (records : List Document)
    (q : List Char) (k : Nat)
    (hrank : ∀ q' l, (rank q' l).length = l.length) :
    ∃ res tr, ragQuery cleanQEnv rank gen records records q k = Except.ok (res, tr)
      ∧ (∀ e ∈ tr, ∀ q' k', e = Event.searchCall q' k' → q' = q ∧ k' = k)
      ∧ res.sources.length = min k records.length := by
  refine ⟨_, _, rfl, ?_, ?_⟩
  · intro e he q' k' heq
    subst heq
    simp only [List.mem_cons, List.not_mem_nil, or_false] at he
    rcases he with h | h | h
    · exact ⟨(Event.searchCall.injEq _ _ _ _ ▸ h.symm).1.symm ▸ rfl,
        (Event.searchCall.injEq _ _ _ _ ▸ h.symm).2.symm ▸ rfl⟩
    · exact absurd h (by simp)
    · exact ⟨(Event.searchCall.injEq _ _ _ _ ▸ h.symm).1.symm ▸ rfl,
        (Event.searchCall.injEq _ _ _ _ ▸ h.symm).2.symm ▸ rfl⟩
  · simp [similarity_search, List.length_take, hrank]

/-- Witness for C3: two records in the store, `top_k = 3`, insertion-order
ranking; the result carries min 3 2 = 2 sources. -/
theorem query_topk_witness :
    ∃ res tr, ragQuery cleanQEnv wRank wGen [wDoc, wDoc2] [wDoc, wDoc2] ['x'] 3
        = Except.ok (res, tr)
      ∧ (∀ e ∈ tr, ∀ q' k', e = Event.searchCall q' k' → q' = ['x'] ∧ k' = 3)
      ∧ res.sources.length = min 3 [wDoc, wDoc2].length :=
  query_topk wRank wGen [wDoc, wDoc2] ['x'] 3 (fun _ _ => rfl)

/-- Claim C4: any failure occurring during retrieval or answer generation
propagates to the caller of `Rag.query` as an error (the result is
`Except.error`, never a success value), in contrast to `store`, which
converts failures into a boolean; absent failures the call returns
normally. -/
theorem query_failure_propagates (env : QueryEnv)
    (rank : List Char → List Document → List Document)
    (gen : List Char → List Char) (r₀ r₁ : List Document)
    (q : List Char) (k : Nat) :
    ((ragQuery env rank gen r₀ r₁ q k).isOk
      = (!env.retrieval1Fails && !env.generationFails && !env.retrieval2Fails))
    ∧ ((env.retrieval1Fails = true ∨ env.generationFails = true
          ∨ env.retrieval2Fails = true)
        → ragQuery env rank gen r₀ r₁ q k = Except.error "Error processing query") := by
  obtain ⟨a, b, c⟩ := env
  cases a <;> cases b <;> cases c <;>
    simp [ragQuery, Except.isOk, Except.toBool]

/-- Witness for C4: with the first retrieval failing, the query raises. -/
theorem query_failure_propagates_witness :
    ragQuery { retrieval1Fails := true, generationFails := false, retrieval2Fails := false }
        wRank wGen [] [] ['x'] 3
      = Except.error "Error processing query" :=
  (query_failure_propagates
      { retrieval1Fails := true, generationFails := false, retrieval2Fails := false }
      wRank wGen [] [] ['x'] 3).2 (Or.inl rfl)

/-- Claim C7 (amended): for every request to the `add_document` endpoint
whose file has an unsupported extension (neither .pdf nor .txt), the
request is rejected with a client-facing failure before any document
loader is invoked and without any call reaching the embedder or the vector
store (the trace holds only the temporary-file write); the `/rag/ingest`
endpoint, by contrast, performs no extension validation at all. -/
theorem add_document_unsupported (env : AddDocEnv) (st : List Document)
    (f : UploadFile) (url : Option String)
    (h1 : endswith ".pdf" f.filename = false)
    (h2 : endswith ".txt" f.filename = false) :
    add_document env st (some f) url
      = ({ success := false, message := "Unsupported file format" }, st,
         [Event.tempWrite]) := by
  simp [add_document, h1, h2]

/-- Witness for C7 (amended) at a concrete .docx upload. -/
theorem add_document_unsupported_witness :
    endswith ".pdf" "report.docx" = false
    ∧ endswith ".txt" "report.docx" = false
    ∧ add_document wAddEnv [] (some { filename := "report.docx", content := [] }) none
      = ({ success := false, message := "Unsupported file format" }, [],
         [Event.tempWrite]) :=
  ⟨by decide, by decide,
   add_document_unsupported wAddEnv [] { filename := "report.docx", content := [] } none
     (by decide) (by decide)⟩

/-- Counterexample for C7 as stated: a `.docx` upload to the `/rag/ingest`
endpoint is not rejected — the text loader is invoked, the vector store's
add operation is reached, and the request succeeds. -/
theorem ingest_docx_not_rejected :
    ((ingest_document cIngestEnv [] { filename := "report.docx", content := [] }).2.2.any
        isLoadCall = true)
    ∧ ((ingest_document cIngestEnv [] { filename := "report.docx", content := [] }).2.2.any
        isAddCall = true)
    ∧ (ingest_document cIngestEnv [] { filename := "report.docx", content := [] }).1
      = Except.ok { success := true, message := "Document ingested successfully" } :=
  ⟨rfl, rfl, rfl⟩

/-- Claim C8 (amended): `Rag` construction fails exactly when one of the
three collaborator constructors (chat model, embeddings, vector store)
raises — the failure is then re-raised as an error — but `Rag.__init__`
itself performs no credential validation: absent environment variables are
passed through to the collaborators unchecked, so whether a missing
credential surfaces at construction is decided entirely by the
collaborators. -/
theorem ragInit_amended (env : EnvVars) (b : CtorBehavior) :
    (ragInit env b
        = Except.ok
            { openaiKey := env.openai_api_key
              pineconeIndex := env.pinecone_index_name
              pineconeKey := env.pinecone_api_key }
      ↔ b.chatModelFails = false
        ∧ b.embeddingsFails env.openai_api_key = false
        ∧ b.vectorStoreFails env.pinecone_index_name env.pinecone_api_key = false)
    ∧ ((b.chatModelFails = true
          ∨ b.embeddingsFails env.openai_api_key = true
          ∨ b.vectorStoreFails env.pinecone_index_name env.pinecone_api_key = true)
        → ragInit env b = Except.error "Failed to initialize RAG system") := by
  rcases hc : b.chatModelFails <;>
    rcases he : b.embeddingsFails env.openai_api_key <;>
      rcases hv : b.vectorStoreFails env.pinecone_index_name env.pinecone_api_key <;>
        simp [ragInit, hc, he, hv]

/-- Witness for C8 (amended): with a failing chat-model constructor,
construction raises. -/
theorem ragInit_amended_witness :
    ragInit emptyEnvVars failingCtors
      = Except.error "Failed to initialize RAG system" :=
  (ragInit_amended emptyEnvVars failingCtors).2 (Or.inl rfl)

/-- Counterexample for C8 as stated: with every required credential absent
from the environment and collaborator constructors that accept absent
credentials (a behaviour the repository's code nowhere excludes),
`Rag` construction succeeds — the missing credentials cause no
configuration error, deferring any failure to first use. -/
theorem ragInit_missing_creds_succeeds :
    ragInit emptyEnvVars benignCtors
      = Except.ok { openaiKey := none, pineconeIndex := none, pineconeKey := none } :=
  rfl

/-- Claim C9 (refuting theorem for the code bug): the staged temporary file
is not deleted on every exit path.  On the `/rag/ingest` path where the
text loader raises, the temp file has been written but `os.remove` is
never reached; and the `add_document` handler never removes its temporary
file at all, even on a fully successful `.txt` ingestion. -/
theorem temp_file_leak :
    ((ingest_document cLoadFailEnv [] { filename := "notes.txt", content := [] }).2.2.any
        isTempWrite = true
      ∧ (ingest_document cLoadFailEnv [] { filename := "notes.txt", content := [] }).2.2.any
        isTempRemove = false)
    ∧ ((add_document wAddEnv [] (some { filename := "notes.txt", content := [] }) none).2.2.any
        isTempWrite = true
      ∧ (add_document wAddEnv [] (some { filename := "notes.txt", content := [] }) none).2.2.any
        isTempRemove = false) :=
  ⟨⟨rfl, rfl⟩, ⟨rfl, rfl⟩⟩

/-- Claim C10: for every query call that returns normally, the vector
store's nearest-neighbor search is invoked exactly twice with the same
query text and the same k — once feeding the prompt context (over the
store contents `r₀` seen by the first call) and a second, independent time
to build `sources` (over the contents `r₁` seen by the second call) — and
the returned sources are built from the second retrieval; since the two
retrievals are separate, the sources are not guaranteed to be the records
that produced the context, witnessed by an instance where they differ. -/
theorem query_double_retrieval :
    (∀ (rank : List Char → List Document → List Document)
        (gen : List Char → List Char) (r₀ r₁ : List Document)
        (q : List Char) (k : Nat),
      ∃ prompt, ragQuery cleanQEnv rank gen r₀ r₁ q k
        = Except.ok
            ({ query := q
               response := gen prompt
               sources := (similarity_search rank r₁ q k).map fun d =>
                 { content := d.page_content, metadata := d.metadata } },
             [Event.searchCall q k, Event.generateCall prompt, Event.searchCall q k]))
    ∧ (∃ res tr, ragQuery cleanQEnv wRank wGen [] [wDoc] ['x'] 1 = Except.ok (res, tr)
        ∧ res.sources ≠ (similarity_search wRank [] ['x'] 1).map fun d =>
            { content := d.page_content, metadata := d.metadata }) := by
  constructor
  · intro rank gen r₀ r₁ q k
    exact ⟨_, rfl⟩
  · refine ⟨_, _, rfl, ?_⟩
    simp [similarity_search, wRank]
